import Mathlib

/-!
Shallow embedding of the media-composition service in `src/main.py`
(repository `video_tools`).

The Python module defines three FastAPI endpoints (`image_to_video`,
`image_audio_to_video`, `concatenate_videos`) plus the helpers
`convert_audio_format`, `get_video_info`, `upload_local_file` and
`upload_to_oss`.  We embed them as pure state-passing functions:

* `St` is the request-visible state: the set of files on disk (`fs`),
  an event trace (`trace`) recording every filesystem / network /
  engine action the handler performs, and a counter (`n`) standing for
  the `uuid.uuid4()` fresh-name supply.
* `Env` is the oracle for everything outside the process: HTTP status
  codes of remote fetches, success of image decoding, of the ffmpeg
  subprocess, of `write_videofile`, the metadata probe
  (`VideoFileClip`), measured audio durations, file sizes, and the
  wall-clock date used by `get_date_directory`.
* Python exceptions are embedded as `Except`.  `HTTPException(s, d)`
  rendered through `str` is `errStr s d` (starlette renders it as
  `"s: d"`); opaque library exception texts are embedded as the fixed
  strings `"decode-error"`, `"video-write-error"`, `"video-load-error"`
  and `"probe-error"`.  Each endpoint's outer `except Exception` block
  catches every exception — including the endpoint's own
  `HTTPException(400, ...)` values, since starlette's `HTTPException`
  derives from `Exception` — and re-raises HTTP 500, exactly as the
  source does.
-/

/-- Python `str.startswith` on one pattern, via the underlying character
lists (the source also uses `startswith` with a tuple of patterns; that
is expressed with `||` at the call sites). -/
def strStartsWith (s pre : String) : Bool := pre.data.isPrefixOf s.data

/-- Python `os.path.basename`, for slash-separated paths: the characters
after the last `'/'`. -/
def basenameAux : List Char → List Char → List Char
  | [], acc => acc.reverse
  | c :: cs, acc => if c = '/' then basenameAux cs [] else basenameAux cs (c :: acc)

/-- Python `os.path.basename` (as used by `upload_local_file`). -/
def basename (p : String) : String := String.mk (basenameAux p.data [])

/-- The fresh-name supply standing for `uuid.uuid4()`: the `n`-th name
drawn during a request. -/
def mkUuid (n : Nat) : String := "u" ++ Nat.repr n

/-- `tempfile.gettempdir()`. -/
def tempDir : String := "/tmp"

/-- starlette's `str(HTTPException(status, detail))`, i.e.
`f"-status-: -detail-"`. -/
def errStr (status : Nat) (detail : String) : String :=
  Nat.repr status ++ ": " ++ detail

/-- The ffmpeg invocation built by `convert_audio_format` (main.py
lines 79-87): `ffmpeg -i input -acodec pcm_s16le -ar 44100 -ac 2
-af volume=10**(volume_db/20) -y output`.  The `-af volume=` argument
is the evaluated linear factor; we record the dB value it was computed
from and recover the factor through `FfmpegCmd.volumeFactor`. -/
structure FfmpegCmd where
  input : String
  acodec : String
  ar : Nat
  ac : Nat
  volumeDb : ℚ
  overwrite : Bool
  output : String
deriving DecidableEq, Repr

/-- The linear gain factor `10**(volume_db/20)` computed in main.py
line 84. -/
noncomputable def linearGain (g : ℚ) : ℝ := (10 : ℝ) ^ ((g : ℝ) / 20)

/-- The linear factor the engine's volume filter receives. -/
noncomputable def FfmpegCmd.volumeFactor (c : FfmpegCmd) : ℝ :=
  linearGain c.volumeDb

/-- The command list of main.py lines 79-87 as a structured value. -/
def buildCmd (input : String) (volume_db : ℚ) (output : String) : FfmpegCmd :=
  { input := input, acodec := "pcm_s16le", ar := 44100, ac := 2,
    volumeDb := volume_db, overwrite := true, output := output }

/-- Metadata a successful `VideoFileClip` probe yields. -/
structure VideoMeta where
  duration : ℚ
  fps : Option ℚ
  width : Option Nat
  height : Option Nat
deriving DecidableEq, Repr

/-- The dictionary returned by `get_video_info` (main.py lines 143-158):
on success it has `duration`, `size`, `fps`, `width`, `height`; on
probe failure only `duration = 0` and an `error` text (all other keys
absent, embedded as `none`). -/
structure VideoInfo where
  duration : ℚ
  size : Option Nat
  fps : Option ℚ
  width : Option Nat
  height : Option Nat
  errorMsg : Option String
deriving DecidableEq, Repr

/-- Oracle for the world outside the handler. -/
structure Env where
  httpStatus : String → Nat
  decodeOk : String → Bool
  ffmpegOk : String → Bool
  ffmpegLeftover : Bool
  writeVideoOk : Bool
  writeVideoLeftover : Bool
  probe : String → Option VideoMeta
  audioDuration : String → ℚ
  fileSize : String → Nat
  ym : String
  day : String

/-- Events a handler performs, in order. -/
inductive Ev where
  | fetch (url : String)
  | write (p : String)
  | copy (src dst : String)
  | remove (p : String)
  | ffmpeg (c : FfmpegCmd)
  | imageClip (p : String)
  | audioClip (p : String)
  | videoClip (p : String)
  | volumex (p : String) (db : ℚ)
  | writeVideo (p : String) (duration : ℚ) (fps : Option Nat)
      (codec audioCodec : String) (bitrate : Option String)
deriving DecidableEq, Repr

/-- Request-scoped state: extant files, performed events, uuid counter. -/
structure St where
  fs : List String
  trace : List Ev
  n : Nat
deriving DecidableEq, Repr

def St.emit (s : St) (e : Ev) : St := { s with trace := s.trace ++ [e] }

def St.write (s : St) (p : String) : St :=
  { fs := p :: s.fs, trace := s.trace ++ [Ev.write p], n := s.n }

def St.copy (s : St) (src dst : String) : St :=
  { fs := dst :: s.fs, trace := s.trace ++ [Ev.copy src dst], n := s.n }

def St.removeFile (s : St) (p : String) : St :=
  { fs := s.fs.erase p, trace := s.trace ++ [Ev.remove p], n := s.n }

/-- `os.path.exists`. -/
def St.has (s : St) (p : String) : Bool := s.fs.contains p

/-- Draw the next `uuid.uuid4()` name. -/
def St.fresh (s : St) : String × St := (mkUuid s.n, { s with n := s.n + 1 })

/-- `if p and os.path.exists(p): os.remove(p)` on an optional path. -/
def St.removeIfTracked (s : St) (t : Option String) : St :=
  match t with
  | some p => if s.has p then s.removeFile p else s
  | none => s

/-- `if os.path.exists(p): os.remove(p)`. -/
def St.removeIfThere (s : St) (p : String) : St :=
  if s.has p then s.removeFile p else s

/-- The initial state of a request. -/
def st0 : St := { fs := [], trace := [], n := 0 }

/-- The remote-reference test used by all three endpoints:
`url.startswith(('http://', 'https://'))`. -/
def isRemote (s : String) : Bool :=
  strStartsWith s "http://" || strStartsWith s "https://"

/-- Python `round(x, 2)` used by `get_video_info`. -/
def round2 (q : ℚ) : ℚ := (round (q * 100) : ℤ) / 100

/-- `get_video_info` (main.py lines 143-158): probes the file; on any
probe failure it returns `duration 0` with an `error` text and no other
metadata — it never raises. -/
def get_video_info (env : Env) (file_path : String) : VideoInfo :=
  match env.probe file_path with
  | some m =>
      { duration := round2 m.duration, size := some (env.fileSize file_path),
        fps := m.fps, width := m.width, height := m.height, errorMsg := none }
  | none =>
      { duration := 0, size := none, fps := none, width := none,
        height := none, errorMsg := some "probe-error" }

/-- `upload_local_file` (main.py lines 38-64): copies `file_path` into
the date-sharded static directory under `os.path.basename(file_path)`
and returns the public URL.  (`os.makedirs(..., exist_ok=True)` has no
observable effect in this model and is not recorded.) -/
def upload_local_file (env : Env) (file_path : String) (s : St) : String × St :=
  let date_dir := "static/videos/" ++ env.ym ++ "/" ++ env.day
  let output_filename := basename file_path
  let destination := date_dir ++ "/" ++ output_filename
  let s := s.copy file_path destination
  let url := "http://video-api.fyshark.com/static/videos/" ++ env.ym ++ "/"
      ++ env.day ++ "/" ++ output_filename
  (url, s)

/-- `upload_to_oss` (main.py lines 66-69) just delegates to
`upload_local_file`. -/
def upload_to_oss (env : Env) (file_path : String) (s : St) : String × St :=
  upload_local_file env file_path s

/-- The request-schema constraint on `volume_db`:
`Field(default=0, ge=-20, le=20)` on `ImageAudioToVideoRequest` and
`ConcatenateVideosRequest` (main.py lines 123-128 and 132-137). -/
def volumeDbValid (g : ℚ) : Bool := decide (-20 ≤ g) && decide (g ≤ 20)

/-- `convert_audio_format` (main.py lines 71-114): writes the ffmpeg
output to a fresh temp-dir `.wav`, copies it into the date-sharded
static directory, removes the temp file, and returns the **static**
path.  On subprocess failure it removes its partial temp output (if the
engine left one; `Env.ffmpegLeftover` decides that) and raises.  It
performs no validation of `volume_db`. -/
def convert_audio_format (env : Env) (input_path : String) (volume_db : ℚ)
    (s : St) : Except String String × St :=
  let (u1, s) := s.fresh
  let temp_output_path := tempDir ++ "/" ++ u1 ++ ".wav"
  let s := s.emit (Ev.ffmpeg (buildCmd input_path volume_db temp_output_path))
  if env.ffmpegOk input_path then
    let s := s.write temp_output_path
    let (u2, s) := s.fresh
    let final_path := "static/videos/" ++ env.ym ++ "/" ++ env.day ++ "/"
        ++ u2 ++ ".wav"
    let s := s.copy temp_output_path final_path
    let s := s.removeFile temp_output_path
    (Except.ok final_path, s)
  else
    let s := if env.ffmpegLeftover
      then (s.write temp_output_path).removeFile temp_output_path
      else s
    (Except.error "音频转换失败", s)

/-- The image-resolution block shared verbatim by `image_to_video`
(main.py lines 168-189) and `image_audio_to_video` (lines 228-246):
remote URLs are fetched, decoded and saved to a fresh temp-dir `.jpg`;
any failure is wrapped into `HTTPException(400, "处理图像URL时出错: ...")`
by the inner `except`; local paths pass through unchanged with no
owned temp file.  Returns (path or error, owned temp file, state). -/
def fetchImage (env : Env) (image_url : String) (s : St) :
    Except String String × Option String × St :=
  if isRemote image_url then
    let s := s.emit (Ev.fetch image_url)
    if env.httpStatus image_url == 200 then
      if env.decodeOk image_url then
        let (u, s) := s.fresh
        let temp := tempDir ++ "/" ++ u ++ ".jpg"
        let s := s.write temp
        (Except.ok temp, some temp, s)
      else
        (Except.error (errStr 400 ("处理图像URL时出错: " ++ "decode-error")),
          none, s)
    else
      (Except.error (errStr 400 ("处理图像URL时出错: "
        ++ errStr 400 ("无法下载图像，状态码: "
            ++ Nat.repr (env.httpStatus image_url)))), none, s)
  else
    (Except.ok image_url, none, s)

/-- `image_to_video` (main.py lines 160-216).  The outer
`except Exception` converts every failure — including the handler's own
`HTTPException(400, ...)` — into HTTP 500 after removing the temp image
and the output file when they exist. -/
def image_to_video (env : Env) (image_url : String) (duration : ℚ) (s : St) :
    Except (Nat × String) (String × ℚ) × St :=
  let (u0, s) := s.fresh
  let output_path := "output/" ++ u0 ++ ".mp4"
  match fetchImage env image_url s with
  | (Except.error msg, temp_image, s) =>
      let s := s.removeIfTracked temp_image
      let s := s.removeIfThere output_path
      (Except.error (500, "创建视频失败: " ++ msg), s)
  | (Except.ok image_path, temp_image, s) =>
      let s := s.emit (Ev.imageClip image_path)
      if env.writeVideoOk then
        let s := s.emit (Ev.writeVideo output_path duration (some 24)
          "libx264" "aac" none)
        let s := s.write output_path
        let s := s.removeIfTracked temp_image
        let info := get_video_info env output_path
        let (url, s) := upload_to_oss env output_path s
        let s := s.removeFile output_path
        (Except.ok (url, info.duration), s)
      else
        let s := if env.writeVideoLeftover then s.write output_path else s
        let s := s.removeIfTracked temp_image
        let s := s.removeIfThere output_path
        (Except.error (500, "创建视频失败: " ++ "video-write-error"), s)

/-- `image_audio_to_video` (main.py lines 218-318).  Note the success
path removes the converted audio only when it is under the temp
directory (line 305) — `convert_audio_format` returns a static-dir
path, so that guard is never taken — and the failure path never
considers it. -/
def image_audio_to_video (env : Env) (image_url audio_url : String)
    (volume_db : ℚ) (s : St) : Except (Nat × String) (String × ℚ) × St :=
  let (u0, s) := s.fresh
  let output_path := "output/" ++ u0 ++ ".mp4"
  match fetchImage env image_url s with
  | (Except.error msg, temp_image, s) =>
      let s := s.removeIfTracked temp_image
      let s := s.removeIfThere output_path
      (Except.error (500, "创建视频失败: " ++ msg), s)
  | (Except.ok image_path, temp_image, s) =>
      let audioStep : Except String String × Option String × St :=
        if isRemote audio_url then
          let (u, s) := s.fresh
          let temp_audio := tempDir ++ "/" ++ u ++ ".mp3"
          let s := s.emit (Ev.fetch audio_url)
          if env.httpStatus audio_url == 200 then
            let s := s.write temp_audio
            (Except.ok temp_audio, some temp_audio, s)
          else
            let s := s.removeIfTracked temp_image
            (Except.error (errStr 400 ("处理音频URL时出错: "
              ++ errStr 400 ("无法下载音频，状态码: "
                  ++ Nat.repr (env.httpStatus audio_url)))),
              some temp_audio, s)
        else
          (Except.ok audio_url, none, s)
      match audioStep with
      | (Except.error msg, temp_audio, s) =>
          let s := s.removeIfTracked temp_image
          let s := s.removeIfTracked temp_audio
          let s := s.removeIfThere output_path
          (Except.error (500, "创建视频失败: " ++ msg), s)
      | (Except.ok audio_path, temp_audio, s) =>
          match convert_audio_format env audio_path volume_db s with
          | (Except.error msg, s) =>
              let s := s.removeIfTracked temp_image
              let s := s.removeIfTracked temp_audio
              let s := s.removeIfThere output_path
              (Except.error (500, "创建视频失败: " ++ msg), s)
          | (Except.ok converted, s) =>
              let s := s.emit (Ev.audioClip converted)
              let adur := env.audioDuration converted
              let s := s.emit (Ev.imageClip image_path)
              if env.writeVideoOk then
                let s := s.emit (Ev.writeVideo output_path adur (some 24)
                  "libx264" "aac" (some "192k"))
                let s := s.write output_path
                let s := s.removeIfTracked temp_image
                let s := s.removeIfTracked temp_audio
                let info := get_video_info env output_path
                let (url, s) := upload_to_oss env output_path s
                let s := s.removeFile output_path
                let s := if s.has converted && strStartsWith converted tempDir
                  then s.removeFile converted else s
                (Except.ok (url, info.duration), s)
              else
                let s := if env.writeVideoLeftover then s.write output_path else s
                let s := s.removeIfTracked temp_image
                let s := s.removeIfTracked temp_audio
                let s := s.removeIfThere output_path
                (Except.error (500, "创建视频失败: " ++ "video-write-error"), s)

/-- The per-URL loop of `concatenate_videos` (main.py lines 332-365):
download remote URLs to fresh temp-dir `.mp4` files (tracking them in
`temp_files` only after a successful write), load each clip, and apply
`volumex(10**(volume_db/20))` when `volume_db != 0`.  Returns the clip
durations (or the first error), the accumulated temp files, and the
state. -/
def concatLoop (env : Env) (volume_db : ℚ) :
    List String → List ℚ → List String → St →
    Except String (List ℚ) × List String × St
  | [], durs, temps, s => (Except.ok durs, temps, s)
  | url :: rest, durs, temps, s =>
    let step : Except String (String × List String) × St :=
      if isRemote url then
        let (u, s) := s.fresh
        let local_path := tempDir ++ "/" ++ u ++ ".mp4"
        let s := s.emit (Ev.fetch url)
        if env.httpStatus url == 200 then
          let s := s.write local_path
          (Except.ok (local_path, temps ++ [local_path]), s)
        else
          (Except.error (errStr 400 ("处理视频URL时出错: "
            ++ errStr 400 ("无法下载视频，状态码: "
                ++ Nat.repr (env.httpStatus url)))), s)
      else
        (Except.ok (url, temps), s)
    match step with
    | (Except.error msg, s) => (Except.error msg, temps, s)
    | (Except.ok (video_path, temps), s) =>
      let s := s.emit (Ev.videoClip video_path)
      match env.probe video_path with
      | none => (Except.error "video-load-error", temps, s)
      | some m =>
        let s := if volume_db ≠ 0 then s.emit (Ev.volumex video_path volume_db)
          else s
        concatLoop env volume_db rest (durs ++ [m.duration]) temps s

/-- The cleanup loop `for temp_file in temp_files: if exists: remove`. -/
def removeAll (ts : List String) (s : St) : St :=
  ts.foldl (fun s t => s.removeIfThere t) s

/-- `concatenate_videos` (main.py lines 320-405).  An empty request list
reaches `if not clips: raise HTTPException(400, ...)`, which the outer
`except Exception` re-raises as HTTP 500. -/
def concatenate_videos (env : Env) (video_urls : List String) (volume_db : ℚ)
    (s : St) : Except (Nat × String) (String × ℚ) × St :=
  let (u0, s) := s.fresh
  let output_path := "output/" ++ u0 ++ ".mp4"
  match concatLoop env volume_db video_urls [] [] s with
  | (Except.error msg, temps, s) =>
      let s := removeAll temps s
      let s := s.removeIfThere output_path
      (Except.error (500, "合并视频失败: " ++ msg), s)
  | (Except.ok durs, temps, s) =>
      if durs.isEmpty then
        let s := removeAll temps s
        let s := s.removeIfThere output_path
        (Except.error (500, "合并视频失败: "
          ++ errStr 400 "没有有效的视频文件可合并"), s)
      else if env.writeVideoOk then
        let total := durs.foldl (· + ·) 0
        let s := s.emit (Ev.writeVideo output_path total none
          "libx264" "aac" (some "192k"))
        let s := s.write output_path
        let info := get_video_info env output_path
        let (url, s) := upload_to_oss env output_path s
        let s := removeAll temps s
        let s := s.removeIfThere output_path
        (Except.ok (url, info.duration), s)
      else
        let s := if env.writeVideoLeftover then s.write output_path else s
        let s := removeAll temps s
        let s := s.removeIfThere output_path
        (Except.error (500, "合并视频失败: " ++ "video-write-error"), s)

/-- Paths created during a request (write events and copy targets). -/
def writesOf : List Ev → List String
  | [] => []
  | Ev.write p :: t => p :: writesOf t
  | Ev.copy _ dst :: t => dst :: writesOf t
  | _ :: t => writesOf t

/-- How many times `p` was deleted. -/
def removeCount (t : List Ev) (p : String) : Nat :=
  (t.filter (fun e => e == Ev.remove p)).length

/-- A path the pipeline owns and must delete before returning: files it
creates under the temp directory or the `output` directory (files it
places under `static` are durable by design). -/
def ownedTempPath (p : String) : Bool :=
  strStartsWith p "/tmp/" || strStartsWith p "output/"

/-- The cleanup discipline of a finished trace: every owned temp or
output file created during the request was deleted exactly once, and no
static-directory file was ever deleted. -/
def cleanupOk (t : List Ev) : Bool :=
  (writesOf t).all (fun p =>
    if ownedTempPath p then removeCount t p == 1 else removeCount t p == 0)

def isFfmpegEv : Ev → Bool
  | Ev.ffmpeg _ => true
  | _ => false

def isVolumexEv : Ev → Bool
  | Ev.volumex _ _ => true
  | _ => false

def isWriteVideoEv : Ev → Bool
  | Ev.writeVideo _ _ _ _ _ _ => true
  | _ => false

def isFetchEv : Ev → Bool
  | Ev.fetch _ => true
  | _ => false

def isAudioClipEv : Ev → Bool
  | Ev.audioClip _ => true
  | _ => false

/-- Number of network fetches in a trace. -/
def fetchCount (t : List Ev) : Nat := (t.filter isFetchEv).length

/-- Did some copy event target `p`? -/
def isCopyTo (p : String) : Ev → Bool
  | Ev.copy _ dst => dst == p
  | _ => false

/-- Was anything copied into the static (publish) area? -/
def publishedToStatic (t : List Ev) : Bool :=
  t.any (fun e =>
    match e with
    | Ev.copy src dst => strStartsWith dst "static" && strStartsWith src "output"
    | _ => false)

/-- The image-audio composition check: the single `write_videofile` call
has duration equal to the measured duration of the single loaded audio
file, that audio file lives in the static area and is the file
`convert_audio_format` copied there, the frame rate is 24 and the audio
bitrate `192k`. -/
def c4check (env : Env) (t : List Ev) : Bool :=
  match t.filter isWriteVideoEv, t.filter isAudioClipEv with
  | [Ev.writeVideo _ d f c a b], [Ev.audioClip p] =>
      (d == env.audioDuration p) && (f == some 24) && (c == "libx264")
        && (a == "aac") && (b == some "192k")
        && strStartsWith p "static" && t.any (isCopyTo p)
  | _, _ => false

deriving instance DecidableEq for Except

def isOkB : Except (Nat × String) (String × ℚ) → Bool
  | Except.ok _ => true
  | Except.error _ => false

def statusOf : Except (Nat × String) (String × ℚ) → Option Nat
  | Except.ok _ => none
  | Except.error e => some e.1

def durationOf : Except (Nat × String) (String × ℚ) → Option ℚ
  | Except.ok r => some r.2
  | Except.error _ => none

/-- Metadata returned by every successful probe in the scenario
environments. -/
def meta1 : VideoMeta :=
  { duration := 2, fps := some 24, width := some 640, height := some 480 }

/-- Scenario environment: each flag selects success or failure of one
external step.  Remote audio URLs are the ones starting `http://a`;
every other URL answers with `imgOk`.  Probing an `output` file answers
with `probeOk`, loading any other clip with `loadOk`.  Measured audio
durations distinguish normalized (static) audio, 4, from everything
else, 9 (integer values, so that kernel evaluation of the runs never
needs rational normalization). -/
def mkEnv (imgOk audOk decOk ffOk wvOk loadOk probeOk : Bool) : Env :=
  { httpStatus := fun u =>
      if strStartsWith u "http://a" then (if audOk then 200 else 404)
      else (if imgOk then 200 else 404),
    decodeOk := fun _ => decOk,
    ffmpegOk := fun _ => ffOk,
    ffmpegLeftover := true,
    writeVideoOk := wvOk,
    writeVideoLeftover := true,
    probe := fun p =>
      if strStartsWith p "output" then (if probeOk then some meta1 else none)
      else (if loadOk then some meta1 else none),
    audioDuration := fun p => if strStartsWith p "static" then 4 else 9,
    fileSize := fun _ => 100,
    ym := "Y", day := "D" }

/-- The all-success scenario. -/
def allOk : Env := mkEnv true true true true true true true


/-- `convert_audio_format` invokes the engine exactly once per call,
with the command built at main.py lines 79-87, whatever the gain value
and whether or not the subprocess succeeds. -/
theorem convert_ffmpeg_events (env : Env) (p : String) (g : ℚ) :
    (convert_audio_format env p g st0).2.trace.filter isFfmpegEv
      = [Ev.ffmpeg (buildCmd p g (tempDir ++ "/" ++ mkUuid 0 ++ ".wav"))] := by
  unfold convert_audio_format
  cases h : env.ffmpegOk p
  · cases hp : env.ffmpegLeftover <;>
      simp [h, hp, St.fresh, St.emit, St.write, St.copy, St.removeFile, st0,
        isFfmpegEv, List.filter]
  · simp [h, St.fresh, St.emit, St.write, St.copy, St.removeFile, st0,
      isFfmpegEv, List.filter]

/-- Claim C2: a remote image reference answered with HTTP 404 makes
`image_to_video` respond with the generic HTTP 500 internal error (the
handler's own `HTTPException(400, ...)` fetch error is swallowed by the
outer `except Exception`), and nothing is written or published.  This
contradicts the claim's required distinct client-error FetchError
outcome; the zero-published-artifacts half does hold. -/
theorem C2_fetch_404_surfaced_as_500 :
    (image_to_video (mkEnv false true true true true true true) "http://i" 3
        st0).1
      = Except.error (500,
          "创建视频失败: 400: 处理图像URL时出错: 400: 无法下载图像，状态码: 404")
    ∧ writesOf (image_to_video (mkEnv false true true true true true true)
        "http://i" 3 st0).2.trace = []
    ∧ (image_to_video (mkEnv false true true true true true true) "http://i" 3
        st0).2.fs = [] := by decide

/-- Claim C3: `concatenate_videos` on an empty list performs no
filesystem action at all and attempts no concatenation, but its
`HTTPException(400, "没有有效的视频文件可合并")` is re-raised by the
outer `except Exception` as HTTP 500, not as the claimed client-error
EmptyInputError response.  This holds for every environment. -/
theorem C3_empty_list_no_writes_but_500 : ∀ env : Env,
    concatenate_videos env [] 0 st0
      = (Except.error (500, "合并视频失败: 400: 没有有效的视频文件可合并"),
         { fs := [], trace := [], n := 1 }) := by
  intro env
  rfl

/-- Claim C4: on every successful image-audio-to-video composition (over
all remote/local input combinations of the all-success scenario), the
single `write_videofile` call uses as video duration the measured
duration of the audio file it loaded, that audio file is the one
`convert_audio_format` copied into the static area (duration 4, while
the caller-supplied audio file measures 9), the frame rate is 24 fps
and the audio bitrate `192k`. -/
theorem C4_duration_from_normalized_audio :
    ∀ ri ra : Bool,
      c4check allOk
        (image_audio_to_video allOk (if ri then "http://i" else "img.jpg")
          (if ra then "http://a" else "aud.mp3") 5 st0).2.trace = true := by
  decide

/-- Claim C5: for every environment, input path and gain value,
`convert_audio_format` invokes the external engine exactly once, with
16-bit linear PCM sample encoding (`pcm_s16le`), 44100 Hz, 2 channels,
and a volume filter whose linear factor is `10^(gainDb/20)`. -/
theorem C5_canonical_engine_parameters :
    ∀ (env : Env) (p : String) (g : ℚ),
      ((convert_audio_format env p g st0).2.trace.filter isFfmpegEv
        = [Ev.ffmpeg (buildCmd p g (tempDir ++ "/" ++ mkUuid 0 ++ ".wav"))])
      ∧ ∀ out, (buildCmd p g out).acodec = "pcm_s16le"
          ∧ (buildCmd p g out).ar = 44100
          ∧ (buildCmd p g out).ac = 2
          ∧ (buildCmd p g out).volumeFactor = (10 : ℝ) ^ ((g : ℝ) / 20) := by
  intro env p g
  exact ⟨convert_ffmpeg_events env p g, fun out => ⟨rfl, rfl, rfl, rfl⟩⟩

/-- Claim C6: a zero gain request is the identity on loudness: the
concatenation endpoint (over remote/local inputs and each
success/failure flag) never applies `volumex` when `volume_db = 0`, and
the volume-filter factor the audio normalization passes for gain 0 is
`10^0 = 1`. -/
theorem C6_zero_gain_identity :
    (∀ r1 r2 fOk loadOk wvOk : Bool,
      ((concatenate_videos (mkEnv fOk true true true wvOk loadOk true)
          [(if r1 then "http://v" else "v1.mp4"),
           (if r2 then "http://w" else "v2.mp4")] 0 st0).2.trace.all
        (fun e => !isVolumexEv e)) = true)
    ∧ (∀ p out, (buildCmd p 0 out).volumeFactor = 1) := by
  constructor
  · decide
  · intro p out
    show linearGain 0 = 1
    simp [linearGain]

/-- Claim C7 counterexample: `convert_audio_format` called with
`volume_db = 100` — far outside the `[-20, 20]` range the request
schema enforces — performs no validation of its own and still invokes
the external engine with that gain, refuting "no engine invocation
occurs with an out-of-range gain" at the transformer level. -/
theorem C7_counterexample :
    ((convert_audio_format allOk "a.mp3" 100 st0).2.trace.filter isFfmpegEv
      = [Ev.ffmpeg (buildCmd "a.mp3" 100 "/tmp/u0.wav")])
    ∧ volumeDbValid 100 = false := by decide

/-- Claim C7 (amended): gain-range enforcement lives only in the request
schema — `volumeDbValid` (the pydantic `ge=-20, le=20` constraint)
accepts exactly the gains in `[-20, 20]` — while
`convert_audio_format` itself re-validates nothing and invokes the
engine for every gain it is handed. -/
theorem C7_schema_only_validation :
    (∀ g : ℚ, volumeDbValid g = true ↔ (-20 ≤ g ∧ g ≤ 20))
    ∧ ∀ (env : Env) (p : String) (g : ℚ),
        (convert_audio_format env p g st0).2.trace.filter isFfmpegEv
          = [Ev.ffmpeg (buildCmd p g (tempDir ++ "/" ++ mkUuid 0 ++ ".wav"))] := by
  constructor
  · intro g
    simp [volumeDbValid]
  · exact convert_ffmpeg_events

/-- Claim C8 counterexample: the publish destination filename is
`os.path.basename` of the source, not a name freshly generated at
publish time — two publishes of distinct sources sharing a basename
land on the identical destination path (a collision a publish-time
fresh unique name would make impossible). -/
theorem C8_counterexample :
    (upload_local_file allOk "output/v.mp4" st0).2.trace
      = [Ev.copy "output/v.mp4" "static/videos/Y/D/v.mp4"]
    ∧ (upload_local_file allOk "backup/v.mp4" st0).2.trace
      = [Ev.copy "backup/v.mp4" "static/videos/Y/D/v.mp4"]
    ∧ ("output/v.mp4" : String) ≠ "backup/v.mp4" := by decide

/-- Claim C8 (amended): `upload_local_file` copies (never moves) the
source into the date-sharded static directory under the source's own
basename — so name and extension are preserved, but the filename is
reused from the source rather than freshly generated — and it never
deletes the source (it adds exactly one copy event and no remove). -/
theorem C8_copy_under_source_basename :
    ∀ (env : Env) (p : String) (s : St),
      (upload_local_file env p s).2.trace
        = s.trace ++ [Ev.copy p
            ("static/videos/" ++ env.ym ++ "/" ++ env.day ++ "/" ++ basename p)]
      ∧ (upload_local_file env p s).2.fs
        = ("static/videos/" ++ env.ym ++ "/" ++ env.day ++ "/" ++ basename p)
            :: s.fs
      ∧ removeCount (upload_local_file env p s).2.trace p
          = removeCount s.trace p := by
  intro env p s
  refine ⟨rfl, rfl, ?_⟩
  simp [upload_local_file, St.copy, removeCount, List.filter_append]

/-- Claim C9: probe failure never aborts a request — `get_video_info`
degrades to a duration-0, metadata-absent descriptor whenever the probe
fails, and `image_to_video` under a probe-failing environment still
publishes the artifact and returns success with duration 0. -/
theorem C9_probe_failure_degrades :
    (∀ (env : Env) (p : String), env.probe p = none →
      get_video_info env p
        = { duration := 0, size := none, fps := none, width := none,
            height := none, errorMsg := some "probe-error" })
    ∧ (∀ r : Bool,
        isOkB (image_to_video (mkEnv true true true true true true false)
          (if r then "http://i" else "img.jpg") 3 st0).1 = true
        ∧ durationOf (image_to_video (mkEnv true true true true true true false)
            (if r then "http://i" else "img.jpg") 3 st0).1 = some 0
        ∧ publishedToStatic
            (image_to_video (mkEnv true true true true true true false)
              (if r then "http://i" else "img.jpg") 3 st0).2.trace = true) := by
  constructor
  · intro env p h
    simp [get_video_info, h]
  · decide

/-- Witness for C9: the degraded descriptor at a concrete probe-failing
environment and file. -/
theorem C9_witness :
    get_video_info (mkEnv true true true true true false false) "somefile.mp4"
      = { duration := 0, size := none, fps := none, width := none,
          height := none, errorMsg := some "probe-error" } :=
  C9_probe_failure_degrades.1 (mkEnv true true true true true false false)
    "somefile.mp4" (by decide)

/-- Claim C10: a reference is remote exactly when it starts with
`http://` or `https://`; anything else — e.g. an `ftp://` URL — is
passed unchanged to the media libraries as a local path, never fetched
and never deleted, in all three endpoints. -/
theorem C10_remote_classification :
    (∀ s : String,
      isRemote s = (strStartsWith s "http://" || strStartsWith s "https://"))
    ∧ isRemote "ftp://host/a.jpg" = false
    ∧ (fetchCount (image_to_video allOk "ftp://host/a.jpg" 3 st0).2.trace = 0
        ∧ (image_to_video allOk "ftp://host/a.jpg" 3 st0).2.trace.contains
            (Ev.imageClip "ftp://host/a.jpg") = true
        ∧ removeCount (image_to_video allOk "ftp://host/a.jpg" 3 st0).2.trace
            "ftp://host/a.jpg" = 0)
    ∧ (fetchCount (concatenate_videos allOk ["ftp://host/v.mp4"] 0
          st0).2.trace = 0
        ∧ (concatenate_videos allOk ["ftp://host/v.mp4"] 0 st0).2.trace.contains
            (Ev.videoClip "ftp://host/v.mp4") = true
        ∧ removeCount (concatenate_videos allOk ["ftp://host/v.mp4"] 0
            st0).2.trace "ftp://host/v.mp4" = 0)
    ∧ (fetchCount (image_audio_to_video allOk "img.jpg" "aud.mp3" 5
          st0).2.trace = 0
        ∧ (image_audio_to_video allOk "img.jpg" "aud.mp3" 5 st0).2.trace.contains
            (Ev.ffmpeg (buildCmd "aud.mp3" 5 "/tmp/u1.wav")) = true
        ∧ (image_audio_to_video allOk "img.jpg" "aud.mp3" 5 st0).2.trace.contains
            (Ev.imageClip "img.jpg") = true
        ∧ removeCount (image_audio_to_video allOk "img.jpg" "aud.mp3" 5
            st0).2.trace "img.jpg" = 0
        ∧ removeCount (image_audio_to_video allOk "img.jpg" "aud.mp3" 5
            st0).2.trace "aud.mp3" = 0) := by
  refine ⟨fun s => rfl, ?_⟩
  decide

/-- Claim C1 counterexample: on a fully successful image-audio-to-video
request the normalized audio file produced by `convert_audio_format` —
`static/videos/Y/D/u4.wav`, the copy target of its temp output — is
still on disk when the handler returns and was never deleted: the
success-path guard `converted_audio_path.startswith(gettempdir())` is
false for the static path, and the failure path never considers the
file.  This refutes "the normalized audio file ... is deleted before
the handler returns". -/
theorem C1_counterexample :
    isOkB (image_audio_to_video allOk "http://i" "http://a" 5 st0).1 = true
    ∧ (image_audio_to_video allOk "http://i" "http://a" 5 st0).2.trace.contains
        (Ev.copy "/tmp/u3.wav" "static/videos/Y/D/u4.wav") = true
    ∧ removeCount
        (image_audio_to_video allOk "http://i" "http://a" 5 st0).2.trace
        "static/videos/Y/D/u4.wav" = 0
    ∧ (image_audio_to_video allOk "http://i" "http://a" 5 st0).2.fs.contains
        "static/videos/Y/D/u4.wav" = true := by decide

/-- Claim C1 (amended): across all three endpoints, over every
combination of remote/local inputs and of success/failure of each
external step (fetch, decode, transcode, encode — with the engine and
encoder always leaving partial files behind on failure), every file the
handler creates under the temp directory or the output directory is
deleted exactly once before it returns, and no file placed under the
static directory — the published artifact and the normalized audio —
is ever deleted. -/
theorem C1_amended_cleanup :
    (∀ r imgOk decOk wvOk probeOk : Bool,
      cleanupOk (image_to_video (mkEnv imgOk true decOk true wvOk true probeOk)
        (if r then "http://i" else "local.jpg") 3 st0).2.trace = true)
    ∧ (∀ ri ra imgOk audOk decOk ffOk wvOk : Bool,
      cleanupOk (image_audio_to_video
        (mkEnv imgOk audOk decOk ffOk wvOk true true)
        (if ri then "http://i" else "img.jpg")
        (if ra then "http://a" else "aud.mp3") 5 st0).2.trace = true)
    ∧ (∀ r1 r2 fOk loadOk wvOk : Bool,
      cleanupOk (concatenate_videos (mkEnv fOk true true true wvOk loadOk true)
        [(if r1 then "http://v" else "v1.mp4"),
         (if r2 then "http://w" else "v2.mp4")] 5 st0).2.trace = true) := by
  refine ⟨by decide, by decide, by decide⟩
